import Mathlib

/-
Shallow embedding of QueueTime's label-encoding core (src/src/datagenerator.py).

Numbers are modelled as rationals (the Python code computes with ints and
floats; all claims are settled at inputs where float rounding is not at
issue).  Python runtime failures (NameError from an undefined variable,
numpy IndexError from an out-of-range index) are modelled with an Except
monad; numpy's index semantics (negative indices wrap once, anything else
raises IndexError) are modelled explicitly.

Known faithfulness notes, recorded here once:
- the source reads the slot-layout constants as `self.POS_SCORE` etc.
  although they are imported at module level from QueueTimeNet.py (a file
  of this repository that is not under src/); the embedding resolves them
  to the layout constants below, which are modelled from the spec.
- `logging` is not imported by the source file; the collision-warning call
  would itself raise NameError if reached.  The embedding records the
  warning data in the state instead; the theorems below show the branch is
  never reached anyway.
- Python raises ZeroDivisionError on a zero cell size; the embedding's
  rational division totalises this.  Every claim is settled at nonzero
  cell sizes.
- line 210 of the source reads the undefined name `bottom_full_y`; the
  embedding raises NameError there, exactly as CPython does.
-/

/-- Runtime errors of the Python fragment being modelled. -/
inductive PyErr where
  | nameError (missing : String)
  | indexError
deriving DecidableEq

/-- A grid cell row-major tensor: rows, then columns, then the flat
per-cell channel list (numpy array of shape
(cell_y_count, cell_x_count, bounding_box_count * 5)). -/
abbrev Grid := List (List (List ℚ))

/-- Resolution of a numpy index against an axis of length n: indices in
[0, n) are used as-is, indices in [-n, 0) wrap once, anything else is an
IndexError (none). -/
def npIdx (n : ℕ) (i : ℤ) : Option ℕ :=
  if 0 ≤ i ∧ i < (n : ℤ) then some i.toNat
  else if -(n : ℤ) ≤ i ∧ i < 0 then some (i + (n : ℤ)).toNat
  else none

/-- Read training_data[r, c, k] with numpy index semantics. -/
def gridGet (g : Grid) (r c : ℤ) (k : ℕ) : Except PyErr ℚ :=
  match npIdx g.length r with
  | none => .error .indexError
  | some ri =>
    let row := g.getD ri []
    match npIdx row.length c with
    | none => .error .indexError
    | some ci =>
      let cell := row.getD ci []
      if k < cell.length then .ok (cell.getD k 0) else .error .indexError

/-- Write training_data[r, c, k] = v with numpy index semantics. -/
def gridSet (g : Grid) (r c : ℤ) (k : ℕ) (v : ℚ) : Except PyErr Grid :=
  match npIdx g.length r with
  | none => .error .indexError
  | some ri =>
    let row := g.getD ri []
    match npIdx row.length c with
    | none => .error .indexError
    | some ci =>
      let cell := row.getD ci []
      if k < cell.length then .ok (g.set ri (row.set ci (cell.set k v)))
      else .error .indexError

/-- Python range(a, b) over integers. -/
def intRange (a b : ℤ) : List ℤ :=
  (List.range (b - a).toNat).map (fun i => a + i)

/-- Modelled from the spec: QueueTimeNet.py (a repository file not under
src/) defines the per-slot channel layout [score, centerX, centerY,
width, height]; POS_SCORE is the score channel. -/
def POS_SCORE : ℕ := 0

/-- Modelled from the spec: channel of the cell-relative center x. -/
def POS_BOX_CENTER_X : ℕ := 1

/-- Modelled from the spec: channel of the cell-relative center y. -/
def POS_BOX_CENTER_Y : ℕ := 2

/-- Modelled from the spec: channel of the cell-relative width. -/
def POS_BOX_WIDTH : ℕ := 3

/-- Modelled from the spec: channel of the cell-relative height. -/
def POS_BOX_HEIGHT : ℕ := 4

/-- Source: self.PADDED_SIZE = 640. -/
def PADDED_SIZE : ℚ := 640

/-- Source: self.DEFAULT_LOCATION = 0. -/
def DEFAULT_LOCATION : ℚ := 0

/-- Source: self.NO_OBJECT_WEIGHT = 0. -/
def NO_OBJECT_WEIGHT : ℚ := 0

/-- Source: self.HAS_OBJECT_WEIGHT = 1. -/
def HAS_OBJECT_WEIGHT : ℚ := 1

/-- The state DataGenerator.__init__ stores (batch_size is accepted but
never assigned to self in the source, so it is not a field here). -/
structure Config where
  img_width : ℚ
  img_height : ℚ
  cell_height : ℚ
  cell_width : ℚ
  img_ids : List ℤ
  bounding_box_count : ℕ
  intersection_threshold : ℚ
deriving DecidableEq

/-- DataGenerator.__init__: plain field assignments, no validation of any
kind (the source lists cell-size validity only as a docstring
precondition).  The literal source line `intersection_threshold=0.7` is
even missing its trailing comma, a syntax error; the embedding models the
evidently intended parameter list. -/
def DataGenerator_init (img_width img_height cell_height cell_width : ℚ)
    (img_ids : List ℤ) (bounding_box_count : ℕ)
    (intersection_threshold : ℚ) (_batch_size : ℕ) : Config :=
  ⟨img_width, img_height, cell_height, cell_width, img_ids,
    bounding_box_count, intersection_threshold⟩

/-- A bounding box [x, y, width, height] in absolute pixel coordinates. -/
structure BBox where
  x : ℚ
  y : ℚ
  w : ℚ
  h : ℚ
deriving DecidableEq

/-- One element of the list returned by get_annotations: {'bbox': [...]}. -/
structure Ann where
  bbox : BBox
deriving DecidableEq

/-- Mutable state of gen_training_tensor: the numpy array plus the
logging.warn messages emitted so far (image id, cell_x_pos, cell_y_pos). -/
structure St where
  grid : Grid
  warnings : List (ℤ × ℤ × ℤ)
deriving DecidableEq

/-- Source lines 101-111: DataGenerator._intersecion_area (the source's
spelling), the axis-aligned rectangle intersection area with both
dimensions clamped to 0. -/
def _intersecion_area (rect1_ul rect1_dims rect2_ul rect2_dims : ℚ × ℚ) : ℚ :=
  let rect1_br := (rect1_ul.1 + rect1_dims.1, rect1_ul.2 + rect1_dims.2)
  let rect2_br := (rect2_ul.1 + rect2_dims.1, rect2_ul.2 + rect2_dims.2)
  let intersection_ul := (max rect1_ul.1 rect2_ul.1, max rect1_ul.2 rect2_ul.2)
  let intersection_br := (min rect1_br.1 rect2_br.1, min rect1_br.2 rect2_br.2)
  let intersection_width := max 0 (intersection_br.1 - intersection_ul.1)
  let intersection_height := max 0 (intersection_br.2 - intersection_ul.2)
  intersection_width * intersection_height

/-- Source line 156: abs_center_x = abs_ul_x + width / 2. -/
def abs_center_x (bb : BBox) : ℚ := bb.x + bb.w / 2

/-- Source line 157: abs_center_y = abs_ul_y + height / 2. -/
def abs_center_y (bb : BBox) : ℚ := bb.y + bb.h / 2

/-- Source line 160: cell_x_pos = floor(abs_center_x / cell_width). -/
def cell_x_pos (cfg : Config) (bb : BBox) : ℤ :=
  ⌊abs_center_x bb / cfg.cell_width⌋

/-- Source line 161: cell_y_pos = floor(abs_center_y / cell_height). -/
def cell_y_pos (cfg : Config) (bb : BBox) : ℤ :=
  ⌊abs_center_y bb / cfg.cell_height⌋

/-- Source line 165: the center x relative to the owning cell's origin,
in cell units. -/
def rel_center_x (cfg : Config) (bb : BBox) : ℚ :=
  (abs_center_x bb - (cell_x_pos cfg bb : ℚ) * cfg.cell_width) / cfg.cell_width

/-- Source line 166: the center y relative to the owning cell's origin,
in cell units. -/
def rel_center_y (cfg : Config) (bb : BBox) : ℚ :=
  (abs_center_y bb - (cell_y_pos cfg bb : ℚ) * cfg.cell_height) / cfg.cell_height

/-- Source lines 180-183: the primary write into the owning cell.  Note
the source sets only the four geometry channels here; it never assigns
POS_SCORE in this block. -/
def primaryWrite (g : Grid) (cyp cxp : ℤ) (rcx rcy rw rh : ℚ) :
    Except PyErr Grid := do
  let g ← gridSet g cyp cxp POS_BOX_CENTER_X rcx
  let g ← gridSet g cyp cxp POS_BOX_CENTER_Y rcy
  let g ← gridSet g cyp cxp POS_BOX_WIDTH rw
  let g ← gridSet g cyp cxp POS_BOX_HEIGHT rh
  return g

/-- Source lines 196-202: the full-coverage pass.  When the box spans at
least one whole cell in both directions, set the score of every fully
covered cell (offsets relative to the owning cell) to HAS_OBJECT_WEIGHT,
outer loop on x, inner on y, both ranges inclusive-exclusive. -/
def fullCoverLoop (cyp cxp left_full_x right_part_x up_full_y bottom_part_y : ℤ)
    (g : Grid) : Except PyErr Grid :=
  if right_part_x > left_full_x then
    if bottom_part_y > up_full_y then
      (intRange left_full_x right_part_x).foldlM (fun g x =>
        (intRange up_full_y bottom_part_y).foldlM (fun g y =>
          gridSet g (cyp + y) (cxp + x) POS_SCORE HAS_OBJECT_WEIGHT) g) g
    else pure g
  else pure g

/-- Source lines 144-243: the body of the per-box loop of
gen_training_tensor, translated statement by statement, with the source's
index arithmetic kept exactly as written (including the bugs: the
undefined name `bottom_full_y` at line 210, the border loops that use
`left_part_x` / `right_part_x` / `up_part_y` / `bottom_part_y` as
absolute grid indices, and line 226 reading column `left_part_x + x`
while writing column `cell_x_pos + x`). -/
def procAnn (cfg : Config) (img_id : ℤ) (st : St) (ann : Ann) :
    Except PyErr St := do
  let bounding_box := ann.bbox
  let cxp : ℤ := cell_x_pos cfg bounding_box
  let cyp : ℤ := cell_y_pos cfg bounding_box
  let rcx : ℚ := rel_center_x cfg bounding_box
  let rcy : ℚ := rel_center_y cfg bounding_box
  let rel_width : ℚ := bounding_box.w / cfg.cell_width
  let rel_height : ℚ := bounding_box.h / cfg.cell_height
  let s ← gridGet st.grid cyp cxp POS_SCORE
  let st : St :=
    if s ≠ NO_OBJECT_WEIGHT then
      ⟨st.grid, st.warnings ++ [(img_id, cxp, cyp)]⟩
    else st
  let g ← primaryWrite st.grid cyp cxp rcx rcy rel_width rel_height
  let x1 : ℚ := rcx - rel_width / 2
  let x2 : ℚ := rcx + rel_width / 2
  let y1 : ℚ := rcy - rel_height / 2
  let y2 : ℚ := rcy + rel_height / 2
  let left_full_x : ℤ := ⌈x1⌉
  let right_part_x : ℤ := ⌊x2⌋
  let up_full_y : ℤ := ⌈y1⌉
  let bottom_part_y : ℤ := ⌊y2⌋
  let g ← fullCoverLoop cyp cxp left_full_x right_part_x up_full_y bottom_part_y g
  let left_part_x : ℤ := left_full_x - 1
  let up_part_y : ℤ := up_full_y - 1
  let left_margin : ℚ := (left_full_x : ℚ) - x1
  let right_margin : ℚ := x2 - (right_part_x : ℚ)
  let up_margin : ℚ := (up_full_y : ℚ) - y1
  let bottom_margin : ℚ ←
    (Except.error (PyErr.nameError "bottom_full_y") : Except PyErr ℚ)
  let g ←
    if left_margin > cfg.intersection_threshold then
      (intRange up_full_y bottom_part_y).foldlM (fun g y => do
        let cur ← gridGet g (cyp + y) left_part_x POS_SCORE
        gridSet g (cyp + y) left_part_x POS_SCORE (max cur HAS_OBJECT_WEIGHT)) g
    else pure g
  let g ←
    if right_margin > cfg.intersection_threshold then
      (intRange up_full_y bottom_part_y).foldlM (fun g y => do
        let cur ← gridGet g (cyp + y) right_part_x POS_SCORE
        gridSet g (cyp + y) right_part_x POS_SCORE (max cur HAS_OBJECT_WEIGHT)) g
    else pure g
  let g ←
    if up_margin > cfg.intersection_threshold then
      (intRange left_full_x right_part_x).foldlM (fun g x => do
        let cur ← gridGet g up_part_y (left_part_x + x) POS_SCORE
        gridSet g up_part_y (cxp + x) POS_SCORE (max cur HAS_OBJECT_WEIGHT)) g
    else pure g
  let g ←
    if bottom_margin > cfg.intersection_threshold then
      (intRange left_full_x right_part_x).foldlM (fun g x => do
        let cur ← gridGet g bottom_part_y (cxp + x) POS_SCORE
        gridSet g bottom_part_y (cxp + x) POS_SCORE (max cur HAS_OBJECT_WEIGHT)) g
    else pure g
  let g ←
    if left_margin * up_margin > cfg.intersection_threshold then do
      let cur ← gridGet g up_part_y left_part_x POS_SCORE
      gridSet g up_part_y left_part_x POS_SCORE (max cur HAS_OBJECT_WEIGHT)
    else pure g
  let g ←
    if left_margin * bottom_margin > cfg.intersection_threshold then do
      let cur ← gridGet g bottom_part_y left_part_x POS_SCORE
      gridSet g bottom_part_y left_part_x POS_SCORE (max cur HAS_OBJECT_WEIGHT)
    else pure g
  let g ←
    if right_margin * bottom_margin > cfg.intersection_threshold then do
      let cur ← gridGet g bottom_part_y right_part_x POS_SCORE
      gridSet g bottom_part_y right_part_x POS_SCORE (max cur HAS_OBJECT_WEIGHT)
    else pure g
  let g ←
    if right_margin * up_margin > cfg.intersection_threshold then do
      let cur ← gridGet g up_part_y right_part_x POS_SCORE
      gridSet g up_part_y right_part_x POS_SCORE (max cur HAS_OBJECT_WEIGHT)
    else pure g
  return ⟨g, st.warnings⟩

/-- Source lines 141-142: the body of the dead conditional that would
reset every score channel (positions congruent to POS_SCORE mod 5) to
NO_OBJECT_WEIGHT; its guard DEFAULT_LOCATION != NO_OBJECT_WEIGHT is
False, so it never runs. -/
def setAllScores (g : Grid) : Grid :=
  g.map (fun row => row.map (fun cell =>
    cell.mapIdx (fun k v => if k % 5 = POS_SCORE then NO_OBJECT_WEIGHT else v)))

/-- Source lines 131-245: gen_training_tensor.  Allocates the
(cell_y_count, cell_x_count, bounding_box_count * 5) array filled with
DEFAULT_LOCATION and folds the per-box loop over the image's box list. -/
def gen_training_tensor (cfg : Config) (img_id : ℤ) (anns : List Ann) :
    Except PyErr St :=
  let cell_x_count : ℤ := ⌈PADDED_SIZE / cfg.cell_width⌉
  let cell_y_count : ℤ := ⌈PADDED_SIZE / cfg.cell_height⌉
  let training_data : Grid :=
    List.replicate cell_y_count.toNat
      (List.replicate cell_x_count.toNat
        (List.replicate (cfg.bounding_box_count * 5) DEFAULT_LOCATION))
  let training_data : Grid :=
    if DEFAULT_LOCATION ≠ NO_OBJECT_WEIGHT then setAllScores training_data
    else training_data
  anns.foldlM (fun st ann => procAnn cfg img_id st ann) ⟨training_data, []⟩

/-- Spec-side predicate (one rectangle pair has zero true overlap because
the rectangles are disjoint or merely touching along the x axis). -/
def rectXSeparated (r1_ul r1_dims r2_ul r2_dims : ℚ × ℚ) : Prop :=
  r1_ul.1 + r1_dims.1 ≤ r2_ul.1 ∨ r2_ul.1 + r2_dims.1 ≤ r1_ul.1

/-- Spec-side predicate: disjoint or merely touching along the y axis. -/
def rectYSeparated (r1_ul r1_dims r2_ul r2_dims : ℚ × ℚ) : Prop :=
  r1_ul.2 + r1_dims.2 ≤ r2_ul.2 ∨ r2_ul.2 + r2_dims.2 ≤ r1_ul.2

/-- Spec-side notion of a rectangle pair with zero true overlap: the
rectangles are disjoint or merely touching on at least one axis. -/
def zeroTrueOverlap (r1_ul r1_dims r2_ul r2_dims : ℚ × ℚ) : Prop :=
  rectXSeparated r1_ul r1_dims r2_ul r2_dims ∨
  rectYSeparated r1_ul r1_dims r2_ul r2_dims

/-- Spec-side predicate: a channel value is one of the two legal score
weights. -/
def score01 (q : ℚ) : Prop := q = NO_OBJECT_WEIGHT ∨ q = HAS_OBJECT_WEIGHT

/-- Spec-side predicate: every score channel of the grid (the positions
congruent to POS_SCORE mod 5) holds one of the two score weights. -/
def allScores01 (g : Grid) : Prop :=
  ∀ row ∈ g, ∀ cell ∈ row, ∀ k < cell.length, k % 5 = POS_SCORE →
    score01 (cell.getD k 0)

/-- A 2 x 2 x 5 grid of zeros: the initial array for a 640-pixel canvas
with 320-pixel cells. -/
def grid0 : Grid := List.replicate 2 (List.replicate 2 (List.replicate 5 (0 : ℚ)))

/-- Configuration with 320-pixel square cells (2 x 2 grid on the 640
canvas) and the default 0.7 threshold. -/
def cfg320 : Config := DataGenerator_init 640 640 320 320 [] 1 (7/10) 20

/-- Configuration with 32-pixel square cells, matching the worked example
of the spec. -/
def cfg32 : Config := DataGenerator_init 640 640 32 32 [] 1 (7/10) 20

/-- The box of the spec's worked example: bbox = (16, 16, 32, 32). -/
def bbW : BBox := ⟨16, 16, 32, 32⟩

/-- A box protruding 0.8 of a cell into its left neighbor under cfg320. -/
def bb6 : BBox := ⟨64, 0, 560, 640⟩

instance {ε α : Type} [DecidableEq ε] [DecidableEq α] :
    DecidableEq (Except ε α) := fun x y =>
  match x, y with
  | .error a, .error b =>
    if h : a = b then .isTrue (by rw [h]) else .isFalse (by simp [h])
  | .ok a, .ok b =>
    if h : a = b then .isTrue (by rw [h]) else .isFalse (by simp [h])
  | .error _, .ok _ => .isFalse (by simp)
  | .ok _, .error _ => .isFalse (by simp)

attribute [local semireducible] Rat.add Rat.sub Rat.mul Rat.inv Rat.ofScientific

theorem error_bind {α β : Type} (e : PyErr) (f : α → Except PyErr β) :
    (Except.error e >>= f) = Except.error e := rfl

theorem bind_error_of {α β : Type} (x : Except PyErr α)
    (f : α → Except PyErr β) (h : ∀ a, ∃ e, f a = Except.error e) :
    ∃ e, (x >>= f) = Except.error e := by
  cases x with
  | error e => exact ⟨e, rfl⟩
  | ok a => exact h a

/-- Processing any single box always raises a Python runtime error: the
chain reaches line 210's read of the undefined `bottom_full_y` (NameError)
unless an earlier grid access already raised IndexError. -/
theorem procAnn_isError (cfg : Config) (img_id : ℤ) (st : St) (ann : Ann) :
    ∃ e, procAnn cfg img_id st ann = Except.error e := by
  unfold procAnn
  apply bind_error_of
  intro s
  apply bind_error_of
  intro g
  apply bind_error_of
  intro g
  exact ⟨_, rfl⟩

theorem getD_replicate_zero (n k : ℕ) :
    (List.replicate n (0 : ℚ)).getD k 0 = 0 := by
  induction n generalizing k with
  | zero => rfl
  | succ n ih =>
    cases k with
    | zero => rfl
    | succ k => exact ih k

theorem allScores01_replicate (a b c : ℕ) :
    allScores01 (List.replicate a (List.replicate b (List.replicate c (0 : ℚ)))) := by
  intro row hrow cell hcell k _ _
  rw [List.eq_of_mem_replicate hrow] at hcell
  rw [List.eq_of_mem_replicate hcell, getD_replicate_zero]
  exact Or.inl rfl

theorem rel_center_x_eq_fract (cfg : Config) (bb : BBox)
    (h : cfg.cell_width ≠ 0) :
    rel_center_x cfg bb = Int.fract (abs_center_x bb / cfg.cell_width) := by
  unfold rel_center_x cell_x_pos Int.fract
  rw [sub_div, mul_div_cancel_right₀ _ h]

theorem rel_center_y_eq_fract (cfg : Config) (bb : BBox)
    (h : cfg.cell_height ≠ 0) :
    rel_center_y cfg bb = Int.fract (abs_center_y bb / cfg.cell_height) := by
  unfold rel_center_y cell_y_pos Int.fract
  rw [sub_div, mul_div_cancel_right₀ _ h]

/-- C1: the claim says the primary write sets the owning cell's score to
hasObjectWeight and that, for a single box exactly covering one cell, the
returned grid has that cell's score hasObjectWeight and its neighbors
noObjectWeight.  The code disagrees twice: the primary-write block
(source lines 180-183) assigns only the four geometry channels and leaves
POS_SCORE untouched, and on the single covering box (320, 0, 320, 320)
under 320-pixel cells gen_training_tensor raises NameError on the
undefined `bottom_full_y` before returning any grid. -/
theorem C1_primary_write_misses_score :
    (do
      let g ← primaryWrite grid0 0 0 (1/2) (1/2) 1 1
      gridGet g 0 0 POS_SCORE) = Except.ok NO_OBJECT_WEIGHT ∧
    gen_training_tensor cfg320 7 [⟨⟨320, 0, 320, 320⟩⟩] =
      Except.error (PyErr.nameError "bottom_full_y") :=
  ⟨by decide, by decide⟩

/-- C2: the claim says every neighbor-presence update stays inside the
grid extents.  The code has no bounds check: for the border-crossing box
(0, 0, 1200, 640) under 320-pixel cells (a 2 x 2 grid), the full-coverage
propagation loop reaches column index 2 and raises IndexError. -/
theorem C2_propagation_out_of_bounds :
    gen_training_tensor cfg320 7 [⟨⟨0, 0, 1200, 640⟩⟩] =
      Except.error PyErr.indexError ∧
    (⌈PADDED_SIZE / cfg320.cell_width⌉ : ℤ) = 2 :=
  ⟨by decide, by decide⟩

/-- C3: the claim says gen_training_tensor always completes and returns a
grid, never failing partway with a runtime error such as an undefined
variable.  On the valid configuration cfg320 and the single nonnegative
box (0, 0, 320, 320), the code raises NameError on the undefined
`bottom_full_y` (source line 210) after having already mutated the grid. -/
theorem C3_fails_with_name_error :
    gen_training_tensor cfg320 7 [⟨⟨0, 0, 320, 320⟩⟩] =
      Except.error (PyErr.nameError "bottom_full_y") := by
  decide

/-- C4: the claim says a second box centered in an already-occupied cell
produces a warning and its geometry wins.  In the code, processing of the
first box already raises NameError at `bottom_full_y`, so the second box
(same owning cell (0,0)) is never reached, no warning is ever emitted and
no grid is returned; the collision test itself (line 172) checks a score
channel the primary write never sets. -/
theorem C4_collision_handling_unreached :
    gen_training_tensor cfg320 7 [⟨⟨0, 0, 100, 100⟩⟩, ⟨⟨10, 10, 80, 80⟩⟩] =
      Except.error (PyErr.nameError "bottom_full_y") := by
  decide

/-- C5 counterexample: constructing a DataGenerator with cell sizes 1000
(exceeding PADDED_SIZE = 640) and threshold 5 (outside [0, 1]) does not
fail: __init__ stores the invalid values and returns normally, so no
configuration error is raised at construction. -/
theorem C5_invalid_config_accepted :
    PADDED_SIZE < 1000 ∧ ¬ ((0 : ℚ) ≤ 5 ∧ (5 : ℚ) ≤ 1) ∧
    DataGenerator_init 640 640 1000 1000 [] 1 5 20 =
      ⟨640, 640, 1000, 1000, [], 1, 5⟩ :=
  ⟨by decide, by decide, rfl⟩

/-- C5 amended: DataGenerator.__init__ performs no validation at all; it
unconditionally stores its parameters and completes for every input,
including cell sizes above paddedSize and thresholds outside [0, 1]. -/
theorem C5_init_never_fails (iw ih ch cw : ℚ) (ids : List ℤ) (bbc : ℕ)
    (it : ℚ) (bs : ℕ) :
    DataGenerator_init iw ih ch cw ids bbc it bs =
      ⟨iw, ih, ch, cw, ids, bbc, it⟩ :=
  rfl

/-- C6: the claim says a margin exceeding intersectionThreshold marks the
neighbor cell present (strict comparison).  For the box bb6 the left
margin is 0.8, strictly above the 0.7 threshold, yet no cell is marked:
the code raises NameError at the undefined `bottom_full_y` (line 210)
before any threshold comparison is evaluated, so no
propagation decision is ever executed. -/
theorem C6_threshold_branch_unreached :
    ((⌈rel_center_x cfg320 bb6 - bb6.w / cfg320.cell_width / 2⌉ : ℚ) -
        (rel_center_x cfg320 bb6 - bb6.w / cfg320.cell_width / 2)) >
      cfg320.intersection_threshold ∧
    gen_training_tensor cfg320 7 [⟨bb6⟩] =
      Except.error (PyErr.nameError "bottom_full_y") :=
  ⟨by decide, by decide⟩

/-- C7: for positive cell sizes, the relative center written by the
primary write lies in the half-open unit square: it equals the fractional
part of center over cell size. -/
theorem C7_rel_center_in_unit_square (cfg : Config) (bb : BBox)
    (hw : 0 < cfg.cell_width) (hh : 0 < cfg.cell_height) :
    0 ≤ rel_center_x cfg bb ∧ rel_center_x cfg bb < 1 ∧
    0 ≤ rel_center_y cfg bb ∧ rel_center_y cfg bb < 1 := by
  rw [rel_center_x_eq_fract cfg bb (ne_of_gt hw),
    rel_center_y_eq_fract cfg bb (ne_of_gt hh)]
  exact ⟨Int.fract_nonneg _, Int.fract_lt_one _,
    Int.fract_nonneg _, Int.fract_lt_one _⟩

/-- C7 witness: the spec's worked example, 32-pixel cells and
bbox = (16, 16, 32, 32). -/
theorem C7_rel_center_in_unit_square_witness :
    0 < cfg32.cell_width ∧ 0 < cfg32.cell_height ∧
    (0 ≤ rel_center_x cfg32 bbW ∧ rel_center_x cfg32 bbW < 1 ∧
     0 ≤ rel_center_y cfg32 bbW ∧ rel_center_y cfg32 bbW < 1) :=
  ⟨by decide, by decide,
    C7_rel_center_in_unit_square cfg32 bbW (by decide) (by decide)⟩

/-- C8: the intersection area is never negative, and for rectangle pairs
with zero true overlap (disjoint or merely touching on some axis) it is
exactly 0: the clamped width or height vanishes. -/
theorem C8_area_zero_on_disjoint (r1u r1d r2u r2d : ℚ × ℚ) :
    0 ≤ _intersecion_area r1u r1d r2u r2d ∧
    (zeroTrueOverlap r1u r1d r2u r2d →
      _intersecion_area r1u r1d r2u r2d = 0) := by
  constructor
  · exact mul_nonneg (le_max_left 0 _) (le_max_left 0 _)
  · intro h
    rcases h with (h | h) | (h | h)
    · have hw : min (r1u.1 + r1d.1) (r2u.1 + r2d.1) - max r1u.1 r2u.1 ≤ 0 :=
        sub_nonpos.mpr
          (le_trans (min_le_left _ _) (le_trans h (le_max_right _ _)))
      show max 0 _ * max 0 _ = 0
      rw [max_eq_left hw, zero_mul]
    · have hw : min (r1u.1 + r1d.1) (r2u.1 + r2d.1) - max r1u.1 r2u.1 ≤ 0 :=
        sub_nonpos.mpr
          (le_trans (min_le_right _ _) (le_trans h (le_max_left _ _)))
      show max 0 _ * max 0 _ = 0
      rw [max_eq_left hw, zero_mul]
    · have hh : min (r1u.2 + r1d.2) (r2u.2 + r2d.2) - max r1u.2 r2u.2 ≤ 0 :=
        sub_nonpos.mpr
          (le_trans (min_le_left _ _) (le_trans h (le_max_right _ _)))
      show max 0 _ * max 0 _ = 0
      rw [max_eq_left hh, mul_zero]
    · have hh : min (r1u.2 + r1d.2) (r2u.2 + r2d.2) - max r1u.2 r2u.2 ≤ 0 :=
        sub_nonpos.mpr
          (le_trans (min_le_right _ _) (le_trans h (le_max_left _ _)))
      show max 0 _ * max 0 _ = 0
      rw [max_eq_left hh, mul_zero]

/-- C8 witness: two unit squares far apart. -/
theorem C8_area_zero_on_disjoint_witness :
    zeroTrueOverlap (0, 0) (1, 1) (5, 5) (1, 1) ∧
    _intersecion_area (0, 0) (1, 1) (5, 5) (1, 1) = 0 :=
  ⟨Or.inl (Or.inl (by decide)),
    (C8_area_zero_on_disjoint (0, 0) (1, 1) (5, 5) (1, 1)).2
      (Or.inl (Or.inl (by decide)))⟩

/-- C9: the intersection area is symmetric in its two rectangles. -/
theorem C9_area_symm (r1u r1d r2u r2d : ℚ × ℚ) :
    _intersecion_area r1u r1d r2u r2d = _intersecion_area r2u r2d r1u r1d := by
  simp only [_intersecion_area]
  rw [max_comm r1u.1 r2u.1, max_comm r1u.2 r2u.2,
    min_comm (r1u.1 + r1d.1) (r2u.1 + r2d.1),
    min_comm (r1u.2 + r1d.2) (r2u.2 + r2d.2)]

/-- C10: whenever gen_training_tensor returns a grid, every score channel
holds noObjectWeight or hasObjectWeight.  (The initial array is all
noObjectWeight, and processing any box raises a runtime error before the
whole pass can return, so only the unmodified initial grid is ever
returned; the written score updates also only ever store
HAS_OBJECT_WEIGHT or a max with it.) -/
theorem C10_scores_binary (cfg : Config) (img_id : ℤ) (anns : List Ann)
    (st : St) (h : gen_training_tensor cfg img_id anns = Except.ok st) :
    allScores01 st.grid := by
  cases anns with
  | nil =>
    simp only [gen_training_tensor, List.foldlM_nil, DEFAULT_LOCATION,
      NO_OBJECT_WEIGHT, ne_eq, not_true_eq_false, if_false, pure,
      Except.pure, Except.ok.injEq] at h
    rw [← h]
    exact allScores01_replicate _ _ _
  | cons a l =>
    exfalso
    simp only [gen_training_tensor, List.foldlM_cons] at h
    rcases procAnn_isError cfg img_id _ a with ⟨e, he⟩
    rw [he, error_bind] at h
    exact Except.noConfusion h

/-- C10 witness: the empty box list on cfg320 returns the all-zero grid,
whose score channels are all noObjectWeight. -/
theorem C10_scores_binary_witness :
    gen_training_tensor cfg320 7 [] = Except.ok ⟨grid0, []⟩ ∧
    allScores01 (St.mk grid0 []).grid :=
  ⟨by decide, C10_scores_binary cfg320 7 [] ⟨grid0, []⟩ (by decide)⟩
